import Mathlib

/-!
Formal model of restic's Windows VSS (Volume Shadow Copy Service) support:
the snapshot lifecycle orchestrator (`internal/fs/vss_windows.go`, with the
non-Windows stub `internal/fs/vss.go`) and the snapshot-backed path resolver
(`internal/fs/fs_local_vss.go`).

Modelling conventions:
- Go strings are embedded as `List Char` (`Str`); Go byte-indexed slicing
  (`s[:2]`) becomes `List.take`, and its out-of-range runtime panic is made
  explicit as an `Option` result (`none` models the panic).
- The stateful native VSS API is embedded as an explicit oracle record that
  fixes the result of every native call; the Go functions become pure
  functions of the oracle, additionally returning a trace of the native
  calls they performed, in order.
- `fmt.Errorf` error values are embedded as an inductive `VssError`, one
  constructor per distinct error site, carrying exactly the data the Go
  format string interpolates (step name, HRESULT, volume, budget).
-/

/-! ## Strings -/

/-- Go strings, embedded as lists of characters. -/
abbrev Str := List Char

/-- Embeds Go `strings.HasPrefix` / the prefix test of `strings.TrimPrefix`. -/
def startsWithL : Str → Str → Bool
  | _, [] => true
  | [], _ :: _ => false
  | c :: s, p :: ps => c == p && startsWithL s ps

/-- Embeds Go `strings.TrimPrefix s pre`: drops `pre` when it leads `s`,
otherwise returns `s` unchanged. -/
def trimPre (s pre : Str) : Str :=
  if startsWithL s pre then s.drop pre.length else s

/-- The Windows extended-length path marker stripped by `snapshotPath`
(Go raw string with four characters: backslash backslash questionmark
backslash). -/
def extendedPre : Str := "\\\\?\\".data

/-! ## HRESULT constants (`vss_windows.go` lines 20-44) -/

def S_OK : Nat := 0x00000000
def E_ACCESSDENIED : Nat := 0x80070005
def E_OUTOFMEMORY : Nat := 0x8007000E
def E_INVALIDARG : Nat := 0x80070057
def VSS_E_BAD_STATE : Nat := 0x80042301
def VSS_E_LEGACY_PROVIDER : Nat := 0x800423F7
def VSS_E_RESYNC_IN_PROGRESS : Nat := 0x800423FF
def VSS_E_SNAPSHOT_NOT_IN_SET : Nat := 0x8004232B
def VSS_E_MAXIMUM_NUMBER_OF_VOLUMES_REACHED : Nat := 0x80042312
def VSS_E_MAXIMUM_NUMBER_OF_SNAPSHOTS_REACHED : Nat := 0x80042317
def VSS_E_NESTED_VOLUME_LIMIT : Nat := 0x8004232C
def VSS_E_OBJECT_NOT_FOUND : Nat := 0x80042308
def VSS_E_PROVIDER_NOT_REGISTERED : Nat := 0x80042304
def VSS_E_PROVIDER_VETO : Nat := 0x80042306
def VSS_E_VOLUME_NOT_SUPPORTED : Nat := 0x8004230C
def VSS_E_VOLUME_NOT_SUPPORTED_BY_PROVIDER : Nat := 0x8004230E
def VSS_E_UNEXPECTED : Nat := 0x80042302
def VSS_E_UNEXPECTED_PROVIDER_ERROR : Nat := 0x8004230F
def VSS_E_UNSELECTED_VOLUME : Nat := 0x8004232A
def VSS_E_CANNOT_REVERT_DISKID : Nat := 0x800423FE
def VSS_E_INVALID_XML_DOCUMENT : Nat := 0x80042311
def VSS_E_OBJECT_ALREADY_EXISTS : Nat := 0x8004230D
def FSRVP_E_SHADOW_COPY_SET_IN_PROGRESS : Nat := 0x80042316

/-- `VSS_CTX_BACKUP`, first value of the `VssContext` iota enum. -/
def VSS_CTX_BACKUP : Nat := 0

/-- `VSS_BT_COPY`, sixth value of the `VssBackup` iota enum. -/
def VSS_BT_COPY : Nat := 5

/-- `VSS_OBJECT_SNAPSHOT`, fourth value of the `VssObjectType` iota enum. -/
def VSS_OBJECT_SNAPSHOT : Nat := 3

/-- `VSS_S_ASYNC_FINISHED` status value of the `IVSSAsync` api. -/
def VSS_S_ASYNC_FINISHED : Nat := 0x0004230A

/-! ## Snapshot data model (`vss_windows.go` lines 427-539) -/

/-- `VssSnapshotProperties`: only the field this core reads
(`snapshotDeviceObject`, via `GetSnapshotDeviceObject`) is modelled; the
remaining native fields are opaque glue never inspected by the code. -/
structure VssSnapshotProperties where
  snapshotDeviceObject : Str
deriving DecidableEq

/-- `VssSnapshotProperties.GetSnapshotDeviceObject`: root path to access the
snapshot files and folders. -/
def VssSnapshotProperties.GetSnapshotDeviceObject
    (p : VssSnapshotProperties) : Str :=
  p.snapshotDeviceObject

/-- `VssSnapshot` (`vss_windows.go` lines 534-539). The native
`iVssBackupComponents` interface pointer is modelled by the boolean
`hasComponents` (`false` embeds a nil pointer); the `ole.GUID` snapshot id
is modelled as an opaque `Nat`. -/
structure VssSnapshot where
  hasComponents : Bool
  snapshotID : Nat
  snapshotProperties : VssSnapshotProperties
  timeoutInMillis : Int
deriving DecidableEq

/-- `VssSnapshot.GetSnapshotDeviceObject` (`vss_windows.go` lines 570-572). -/
def VssSnapshot.GetSnapshotDeviceObject (p : VssSnapshot) : Str :=
  p.snapshotProperties.GetSnapshotDeviceObject

/-! ## Non-Windows stub (`vss.go`, and the identical `unnamed/part_000`) -/

/-- `NewVssSnapshot` from `vss.go` (build tag `!windows`): fails immediately
and uniformly, for every volume and timeout argument, with the single
platform-unsupported error value. -/
def NewVssSnapshotNonWindows (volume : Str) (timeoutInSeconds : Nat) :
    Except String VssSnapshot :=
  .error "VSS snapshots are only supported on windows"

/-- The non-Windows snapshot creator in the shape the resolver consumes
(the resolver only distinguishes success from failure and logs the error
message, so creation collapses to an `Option`). -/
def createNonWindows (volume : Str) : Option VssSnapshot :=
  match NewVssSnapshotNonWindows volume 120 with
  | .ok s => some s
  | .error _ => none

/-! ## Snapshot-backed path resolver (`fs_local_vss.go`)

Both concatenated variants of `fs_local_vss.go` contain the same
`snapshotPath` logic (lines 77-114 and lines 235-263); the embedding below
covers both.  `fixpath` and `fs.Join` live outside the given sources and are
passed as parameters, so every theorem below holds for every normalization
and join function.  Creation is passed as the parameter `create`
(`NewVssSnapshot` with the fixed 120-second timeout in the source). -/

/-- The snapshot cache `map[string]VssSnapshot`, embedded as an association
list keyed by the two-character volume name. -/
abbrev SnapCache := List (Str × VssSnapshot)

/-- Lookup in the snapshot cache (embeds Go map indexing). -/
def findVol : SnapCache → Str → Option VssSnapshot
  | [], _ => none
  | (k, s) :: rest, v => if k = v then some s else findVol rest v

/-- Result of one `snapshotPath` call: the updated cache, the returned path
(`none` embeds the Go runtime panic of `fixPath[:2]` on an input whose
normalized form is shorter than two characters), and whether
`NewVssSnapshot` was invoked during the call. -/
structure ResolveOut where
  cache : SnapCache
  result : Option Str
  created : Bool
deriving DecidableEq

/-- `LocalVss.snapshotPath` (`fs_local_vss.go` lines 77-114 / 235-263):
normalize the path and strip the extended-length prefix, take the
two-character volume name, create-and-cache a snapshot on a cache miss
(dropping the attempt on creation failure), then return the path joined
into the snapshot device object on a hit and the original path otherwise. -/
def snapshotPath (fixpath : Str → Str) (join : Str → Str → Str)
    (create : Str → Option VssSnapshot) (cache : SnapCache) (path : Str) :
    ResolveOut :=
  let fixPath := trimPre (fixpath path) extendedPre
  if fixPath.length < 2 then ⟨cache, none, false⟩
  else
    let volumeName := fixPath.take 2
    let ensured : SnapCache × Bool :=
      match findVol cache volumeName with
      | some _ => (cache, false)
      | none =>
          match create (volumeName ++ "\\".data) with
          | some snapshot => ((volumeName, snapshot) :: cache, true)
          | none => (cache, true)
    let result : Str :=
      match findVol ensured.1 volumeName with
      | some snapshot =>
          join snapshot.GetSnapshotDeviceObject (trimPre fixPath volumeName)
      | none => path
    ⟨ensured.1, some result, ensured.2⟩

/-- Resolves a list of paths in order through `snapshotPath`, threading the
cache (the resolver's `Open`/`OpenFile`/`Stat`/`Lstat` all resolve through
`snapshotPath` before delegating, so a sequence of resolver operations is a
sequence of `snapshotPath` calls). -/
def resolveAll (fixpath : Str → Str) (join : Str → Str → Str)
    (create : Str → Option VssSnapshot) :
    SnapCache → List Str → SnapCache × List (Option Str)
  | cache, [] => (cache, [])
  | cache, p :: ps =>
      let r := snapshotPath fixpath join create cache p
      let rest := resolveAll fixpath join create r.cache ps
      (rest.1, r.result :: rest.2)

/-! ## Native protocol steps and errors -/

/-- The native protocol steps of `NewVssSnapshot`, in the claim's
terminology, carrying the arguments the source passes at each call site. -/
inductive VssStep where
  | createInstance
  | initializeForBackup
  | setContext (ctx : Nat)
  | setBackupState (selectComponents : Bool) (backupBootableSystemState : Bool)
      (backupType : Nat) (partFileSupport : Bool)
  | gatherWriterMetadata
  | isVolumeSupported (volume : Str)
  | startSnapshotSet
  | addToSnapshotSet (volume : Str)
  | prepareForBackup
  | doSnapshotSet
  | getSnapshotProperties
deriving DecidableEq

/-- The method name each step's error message interpolates. -/
def VssStep.name : VssStep → String
  | .createInstance => "CreateVssBackupComponents"
  | .initializeForBackup => "InitializeForBackup"
  | .setContext _ => "SetContext"
  | .setBackupState _ _ _ _ => "SetBackupState"
  | .gatherWriterMetadata => "GatherWriterMetadata"
  | .isVolumeSupported _ => "IsVolumeSupported"
  | .startSnapshotSet => "StartSnapshotSet"
  | .addToSnapshotSet _ => "AddToSnapshotSet"
  | .prepareForBackup => "PrepareForBackup"
  | .doSnapshotSet => "DoSnapshotSet"
  | .getSnapshotProperties => "GetSnapshotProperties"

/-- Error values produced by `vss_windows.go`, one constructor per distinct
`fmt.Errorf` site, carrying the data interpolated there. -/
inductive VssError where
  | archDetectFailed
  | archIncompatible
  | loadLibraryFailed
  | coInitializeFailed
  | accessDenied (hres : Nat)
  | createInstanceFailed (hres : Nat)
  | queryInterfaceFailed
  | stepReturned (name : String) (hres : Nat)
  | volumeNotSupported (volume : Str)
  | nilAsync (name : String)
  | waitTimedOut (millis : Int)
  | freePropsFailed (msg : String)
  | deleteSnapshotsFailed (hres : Nat)
deriving DecidableEq

/-! ## Asynchronous calls (`vss_windows.go` lines 292-312, 504-530, 750-773) -/

/-- Oracle for one asynchronous native call: the HRESULT of the initiating
call, whether the `IVSSAsync` interface lookup after a successful call
succeeds (`queryInterface` inside `handleAsyncReturnValue`), and whether the
subsequent `WaitUntilAsyncFinished` returns success (`false` embeds its
timeout error; the wait loop itself is modelled in detail by
`waitLoopFrom`). -/
structure AsyncOracle where
  callRes : Nat
  queryInterfaceOk : Bool
  waitOk : Bool
deriving DecidableEq

/-- `handleAsyncReturnValue` (`vss_windows.go` lines 294-312): passes a
failing HRESULT through with no handle; on success looks up the `IVSSAsync`
interface, yielding a nil handle (second component `false`) when the lookup
fails. -/
def handleAsyncReturnValue (result : Nat) (queryInterfaceOk : Bool) :
    Nat × Bool :=
  if result ≠ S_OK then (result, false)
  else if queryInterfaceOk then (result, true)
  else (result, false)

/-- `handleAsyncFunctionCall` (`vss_windows.go` lines 750-773): fail with
the step's name and HRESULT when the initiating call fails; fail with a
nil-naming error when the call succeeded but no async handle was produced;
otherwise wait, propagating the wait's timeout error (which carries only the
millisecond budget). -/
def handleAsyncFunctionCall (o : AsyncOracle) (name : String)
    (timeoutInMillis : Int) : Option VssError :=
  let r := handleAsyncReturnValue o.callRes o.queryInterfaceOk
  if r.1 ≠ S_OK then some (.stepReturned name r.1)
  else if r.2 = false then some (.nilAsync name)
  else if o.waitOk then none
  else some (.waitTimedOut timeoutInMillis)

/-- One iteration's environment for the `WaitUntilAsyncFinished` poll loop:
the HRESULT of `Wait(100)`, the HRESULT and state of `QueryStatus()`, and
the value `time.Now().Unix()` (seconds!) would have at this iteration's
timeout check. -/
structure PollOutcome where
  waitRes : Nat
  queryRes : Nat
  state : Nat
  nowUnix : Int
deriving DecidableEq

/-- The loop body of `WaitUntilAsyncFinished` (`vss_windows.go` lines
504-530), supplied with the iteration environment `polls`, starting at
iteration `i`, with explicit fuel (`none` means the fuel ran out with the
loop still running, `some none` embeds the nil return on
`VSS_S_ASYNC_FINISHED`, `some (some e)` the timeout error return).
Mirrors the source exactly: a failing `Wait` or `QueryStatus` `continue`s,
a finished state returns nil, and only then is `time.Now().Unix()-start >
millis` checked — elapsed seconds against a millisecond budget. -/
def waitLoopFrom (polls : Nat → PollOutcome) (start millis : Int) :
    Nat → Nat → Option (Option VssError)
  | _, 0 => none
  | i, fuel + 1 =>
      let p := polls i
      if p.waitRes = S_OK then
        if p.queryRes = S_OK then
          if p.state = VSS_S_ASYNC_FINISHED then some none
          else if p.nowUnix - start > millis then
            some (some (.waitTimedOut millis))
          else waitLoopFrom polls start millis (i + 1) fuel
        else waitLoopFrom polls start millis (i + 1) fuel
      else waitLoopFrom polls start millis (i + 1) fuel

/-- `WaitUntilAsyncFinished` run from its first iteration. -/
def WaitUntilAsyncFinished (polls : Nat → PollOutcome) (start millis : Int)
    (fuel : Nat) : Option (Option VssError) :=
  waitLoopFrom polls start millis 0 fuel

/-- Poll environment of a healthy-but-slow async step: every `Wait` and
`QueryStatus` succeeds, the state never reports finished, and the clock
advances one second per ten 100ms polls. -/
def clockPolls (i : Nat) : PollOutcome :=
  ⟨S_OK, S_OK, 0, ((i / 10 : Nat) : Int)⟩

/-- Poll environment whose `QueryStatus` fails on every iteration, even
though its state reports finished and its clock is far past any budget. -/
def badPolls (_ : Nat) : PollOutcome :=
  ⟨S_OK, E_ACCESSDENIED, VSS_S_ASYNC_FINISHED, 1000000000⟩

/-! ## Snapshot creation orchestrator (`vss_windows.go` lines 576-743) -/

/-- Oracle fixing the result of every native call `NewVssSnapshot` makes:
the architecture/library/COM setup, each synchronous step's HRESULT, each
asynchronous step's `AsyncOracle`, the volume-support answer, the snapshot
set id, and the properties record the final step fills in. -/
structure VssApiOracle where
  archOk : Bool
  loadOk : Bool
  coInitOk : Bool
  createInstanceRes : Nat
  queryInterfaceOk : Bool
  initializeForBackupRes : Nat
  setContextRes : Nat
  setBackupStateRes : Nat
  gatherWriterMetadata : AsyncOracle
  isVolumeSupportedRes : Nat
  isVolumeSupportedVal : Bool
  startSnapshotSetRes : Nat
  snapshotSetId : Nat
  addToSnapshotSetRes : Nat
  prepareForBackup : AsyncOracle
  doSnapshotSet : AsyncOracle
  getSnapshotPropertiesRes : Nat
  snapshotProps : VssSnapshotProperties
deriving DecidableEq

/-- `NewVssSnapshot` (`vss_windows.go` lines 576-743), returning the ordered
trace of protocol steps it performed together with its result.  The Go
`switch` on the constructor call's HRESULT has disjoint cases, so testing
`E_ACCESSDENIED` before `S_OK` is equivalent to the source's order. -/
def NewVssSnapshot (w : VssApiOracle) (volume : Str)
    (timeoutInSeconds : Nat) : List VssStep × Except VssError VssSnapshot :=
  if w.archOk = false then ([], .error .archIncompatible)
  else if w.loadOk = false then ([], .error .loadLibraryFailed)
  else if w.coInitOk = false then ([], .error .coInitializeFailed)
  else
    let timeoutInMillis : Int := (timeoutInSeconds : Int) * 1000
    if w.createInstanceRes = E_ACCESSDENIED then
      ([.createInstance], .error (.accessDenied E_ACCESSDENIED))
    else if w.createInstanceRes = S_OK then
      if w.queryInterfaceOk = false then
        ([.createInstance], .error .queryInterfaceFailed)
      else if w.initializeForBackupRes = S_OK then
        if w.setContextRes = S_OK then
          if w.setBackupStateRes = S_OK then
            match handleAsyncFunctionCall w.gatherWriterMetadata
                "GatherWriterMetadata" timeoutInMillis with
            | some e =>
                ([.createInstance, .initializeForBackup,
                  .setContext VSS_CTX_BACKUP,
                  .setBackupState false false VSS_BT_COPY false,
                  .gatherWriterMetadata], .error e)
            | none =>
                if w.isVolumeSupportedRes = S_OK then
                  if w.isVolumeSupportedVal then
                    if w.startSnapshotSetRes = S_OK then
                      if w.addToSnapshotSetRes = S_OK then
                        match handleAsyncFunctionCall w.prepareForBackup
                            "PrepareForBackup" timeoutInMillis with
                        | some e =>
                            ([.createInstance, .initializeForBackup,
                              .setContext VSS_CTX_BACKUP,
                              .setBackupState false false VSS_BT_COPY false,
                              .gatherWriterMetadata,
                              .isVolumeSupported volume, .startSnapshotSet,
                              .addToSnapshotSet volume,
                              .prepareForBackup], .error e)
                        | none =>
                            match handleAsyncFunctionCall w.doSnapshotSet
                                "DoSnapshotSet" timeoutInMillis with
                            | some e =>
                                ([.createInstance, .initializeForBackup,
                                  .setContext VSS_CTX_BACKUP,
                                  .setBackupState false false VSS_BT_COPY
                                    false,
                                  .gatherWriterMetadata,
                                  .isVolumeSupported volume,
                                  .startSnapshotSet,
                                  .addToSnapshotSet volume,
                                  .prepareForBackup, .doSnapshotSet],
                                 .error e)
                            | none =>
                                if w.getSnapshotPropertiesRes = S_OK then
                                  ([.createInstance, .initializeForBackup,
                                    .setContext VSS_CTX_BACKUP,
                                    .setBackupState false false VSS_BT_COPY
                                      false,
                                    .gatherWriterMetadata,
                                    .isVolumeSupported volume,
                                    .startSnapshotSet,
                                    .addToSnapshotSet volume,
                                    .prepareForBackup, .doSnapshotSet,
                                    .getSnapshotProperties],
                                   .ok ⟨true, w.snapshotSetId,
                                     w.snapshotProps, timeoutInMillis⟩)
                                else
                                  ([.createInstance, .initializeForBackup,
                                    .setContext VSS_CTX_BACKUP,
                                    .setBackupState false false VSS_BT_COPY
                                      false,
                                    .gatherWriterMetadata,
                                    .isVolumeSupported volume,
                                    .startSnapshotSet,
                                    .addToSnapshotSet volume,
                                    .prepareForBackup, .doSnapshotSet,
                                    .getSnapshotProperties],
                                   .error (.stepReturned
                                     "GetSnapshotProperties"
                                     w.getSnapshotPropertiesRes))
                      else
                        ([.createInstance, .initializeForBackup,
                          .setContext VSS_CTX_BACKUP,
                          .setBackupState false false VSS_BT_COPY false,
                          .gatherWriterMetadata, .isVolumeSupported volume,
                          .startSnapshotSet, .addToSnapshotSet volume],
                         .error (.stepReturned "AddToSnapshotSet"
                           w.addToSnapshotSetRes))
                    else
                      ([.createInstance, .initializeForBackup,
                        .setContext VSS_CTX_BACKUP,
                        .setBackupState false false VSS_BT_COPY false,
                        .gatherWriterMetadata, .isVolumeSupported volume,
                        .startSnapshotSet],
                       .error (.stepReturned "StartSnapshotSet"
                         w.startSnapshotSetRes))
                  else
                    ([.createInstance, .initializeForBackup,
                      .setContext VSS_CTX_BACKUP,
                      .setBackupState false false VSS_BT_COPY false,
                      .gatherWriterMetadata, .isVolumeSupported volume],
                     .error (.volumeNotSupported volume))
                else
                  ([.createInstance, .initializeForBackup,
                    .setContext VSS_CTX_BACKUP,
                    .setBackupState false false VSS_BT_COPY false,
                    .gatherWriterMetadata, .isVolumeSupported volume],
                   .error (.stepReturned "IsVolumeSupported"
                     w.isVolumeSupportedRes))
          else
            ([.createInstance, .initializeForBackup,
              .setContext VSS_CTX_BACKUP,
              .setBackupState false false VSS_BT_COPY false],
             .error (.stepReturned "SetBackupState" w.setBackupStateRes))
        else
          ([.createInstance, .initializeForBackup,
            .setContext VSS_CTX_BACKUP],
           .error (.stepReturned "SetContext" w.setContextRes))
      else
        ([.createInstance, .initializeForBackup],
         .error (.stepReturned "InitializeForBackup"
           w.initializeForBackupRes))
    else
      ([.createInstance],
       .error (.createInstanceFailed w.createInstanceRes))

/-- The fixed protocol order stated by the spec (spec §4.1, steps 1-11). -/
def vssProtocol (volume : Str) : List VssStep :=
  [.createInstance, .initializeForBackup, .setContext VSS_CTX_BACKUP,
   .setBackupState false false VSS_BT_COPY false, .gatherWriterMetadata,
   .isVolumeSupported volume, .startSnapshotSet, .addToSnapshotSet volume,
   .prepareForBackup, .doSnapshotSet, .getSnapshotProperties]

/-- The failure each individual protocol step produces under oracle `w`
(`none` when the step succeeds). -/
def stepFailure (w : VssApiOracle) (timeoutInMillis : Int) :
    VssStep → Option VssError
  | .createInstance =>
      if w.createInstanceRes = E_ACCESSDENIED then
        some (.accessDenied E_ACCESSDENIED)
      else if w.createInstanceRes = S_OK then
        if w.queryInterfaceOk = false then some .queryInterfaceFailed
        else none
      else some (.createInstanceFailed w.createInstanceRes)
  | .initializeForBackup =>
      if w.initializeForBackupRes = S_OK then none
      else some (.stepReturned "InitializeForBackup"
        w.initializeForBackupRes)
  | .setContext _ =>
      if w.setContextRes = S_OK then none
      else some (.stepReturned "SetContext" w.setContextRes)
  | .setBackupState _ _ _ _ =>
      if w.setBackupStateRes = S_OK then none
      else some (.stepReturned "SetBackupState" w.setBackupStateRes)
  | .gatherWriterMetadata =>
      handleAsyncFunctionCall w.gatherWriterMetadata "GatherWriterMetadata"
        timeoutInMillis
  | .isVolumeSupported v =>
      if w.isVolumeSupportedRes = S_OK then
        if w.isVolumeSupportedVal then none
        else some (.volumeNotSupported v)
      else some (.stepReturned "IsVolumeSupported" w.isVolumeSupportedRes)
  | .startSnapshotSet =>
      if w.startSnapshotSetRes = S_OK then none
      else some (.stepReturned "StartSnapshotSet" w.startSnapshotSetRes)
  | .addToSnapshotSet _ =>
      if w.addToSnapshotSetRes = S_OK then none
      else some (.stepReturned "AddToSnapshotSet" w.addToSnapshotSetRes)
  | .prepareForBackup =>
      handleAsyncFunctionCall w.prepareForBackup "PrepareForBackup"
        timeoutInMillis
  | .doSnapshotSet =>
      handleAsyncFunctionCall w.doSnapshotSet "DoSnapshotSet"
        timeoutInMillis
  | .getSnapshotProperties =>
      if w.getSnapshotPropertiesRes = S_OK then none
      else some (.stepReturned "GetSnapshotProperties"
        w.getSnapshotPropertiesRes)

/-- Runs steps strictly in list order, checking each for success before the
next begins, aborting at the first failure. -/
def runProtocolAux (fail : VssStep → Option VssError) :
    List VssStep → List VssStep × Option VssError
  | [] => ([], none)
  | s :: rest =>
      match fail s with
      | some e => ([s], some e)
      | none =>
          let r := runProtocolAux fail rest
          (s :: r.1, r.2)

/-- The spec-side executor (spec §4.1): the fixed step list, executed
strictly in order, each step checked for success before the next begins,
any failure aborting the whole sequence with that step's error and no
snapshot value; on success the snapshot holds the live session handle, the
snapshot-set identifier, the properties and the timeout budget. -/
def runProtocolSpec (w : VssApiOracle) (volume : Str)
    (timeoutInSeconds : Nat) : List VssStep × Except VssError VssSnapshot :=
  if w.archOk = false then ([], .error .archIncompatible)
  else if w.loadOk = false then ([], .error .loadLibraryFailed)
  else if w.coInitOk = false then ([], .error .coInitializeFailed)
  else
    let timeoutInMillis : Int := (timeoutInSeconds : Int) * 1000
    let r := runProtocolAux (stepFailure w timeoutInMillis)
      (vssProtocol volume)
    match r.2 with
    | some e => (r.1, .error e)
    | none =>
        (r.1, .ok ⟨true, w.snapshotSetId, w.snapshotProps, timeoutInMillis⟩)

/-! ## Snapshot deletion (`vss_windows.go` lines 542-566) -/

/-- Oracle for one `VssSnapshot.Delete` call: the result of
`vssFreeSnapshotProperties`, the async oracle of `BackupComplete`, and the
HRESULT of `DeleteSnapshots`. -/
structure DeleteOracle where
  freePropsErr : Option String
  backupComplete : AsyncOracle
  deleteSnapshotsRes : Nat
deriving DecidableEq

/-- Native-resource events `Delete` can perform, in the order it performs
them (`release` is the deferred `iVssBackupComponents.Release()`). -/
inductive DelEvent where
  | freeProps
  | backupComplete
  | deleteSnapshots
  | release
deriving DecidableEq

/-- `VssSnapshot.Delete` (`vss_windows.go` lines 542-566): free the
properties record first, returning immediately on its failure; when the
session interface is present, defer its release, signal `BackupComplete`
(recording its error), then call `DeleteSnapshots` (a failure there
overwrites the recorded error); return the recorded error. -/
def VssSnapshot.Delete (p : VssSnapshot) (o : DeleteOracle) :
    List DelEvent × Option VssError :=
  match o.freePropsErr with
  | some m => ([.freeProps], some (.freePropsFailed m))
  | none =>
      if p.hasComponents then
        let e := handleAsyncFunctionCall o.backupComplete "BackupComplete"
          p.timeoutInMillis
        let err := if o.deleteSnapshotsRes = S_OK then e
          else some (.deleteSnapshotsFailed o.deleteSnapshotsRes)
        ([.freeProps, .backupComplete, .deleteSnapshots, .release], err)
      else ([.freeProps], none)

/-! ## Concrete inputs used by witnesses and counterexamples -/

/-- A snapshot whose root is the spec's end-to-end example device object. -/
def snapC : VssSnapshot :=
  ⟨true, 1, ⟨"\\\\?\\SnapshotDevice\\1".data⟩, 120000⟩

/-- A snapshot whose deletion-time session interface is present. -/
def delSnap : VssSnapshot := ⟨true, 7, ⟨"X:".data⟩, 120000⟩

/-- Deletion oracle where `BackupComplete` fails first and `DeleteSnapshots`
fails afterwards. -/
def delBothFail : DeleteOracle :=
  ⟨none, ⟨VSS_E_BAD_STATE, true, true⟩, VSS_E_OBJECT_NOT_FOUND⟩

/-- Oracle on which every native call of the creation protocol succeeds. -/
def okOracle : VssApiOracle :=
  ⟨true, true, true, S_OK, true, S_OK, S_OK, S_OK, ⟨S_OK, true, true⟩,
   S_OK, true, S_OK, 42, S_OK, ⟨S_OK, true, true⟩, ⟨S_OK, true, true⟩,
   S_OK, ⟨"\\\\?\\SnapshotDevice\\1".data⟩⟩

/-! ## Resolver theorems -/

/-- Helper: a `findVol` miss means the key is not among the cache keys. -/
theorem findVol_none_not_mem (c : SnapCache) (v : Str)
    (h : findVol c v = none) : v ∉ c.map Prod.fst := by
  induction c with
  | nil => simp
  | cons kv rest ih =>
      obtain ⟨k, s⟩ := kv
      by_cases hk : k = v
      · simp [findVol, hk] at h
      · simp only [findVol, if_neg hk] at h
        simp [List.mem_cons, ih h]
        exact fun he => hk he.symm

/-- Helper: one `snapshotPath` call never removes or replaces an existing
cache entry. -/
theorem snapshotPath_cache_mono (fixpath : Str → Str)
    (join : Str → Str → Str) (create : Str → Option VssSnapshot)
    (cache : SnapCache) (p v : Str) (s : VssSnapshot)
    (h : findVol cache v = some s) :
    findVol (snapshotPath fixpath join create cache p).cache v = some s := by
  unfold snapshotPath
  by_cases hlen : (trimPre (fixpath p) extendedPre).length < 2
  · simp [hlen, h]
  · simp only [if_neg hlen]
    cases hvol : findVol cache ((trimPre (fixpath p) extendedPre).take 2) with
    | some t => simp [hvol, h]
    | none =>
        cases hc : create ((trimPre (fixpath p) extendedPre).take 2 ++
            "\\".data) with
        | none => simp [hvol, hc, h]
        | some snap =>
            have hne : (trimPre (fixpath p) extendedPre).take 2 ≠ v := by
              intro he
              rw [he, h] at hvol
              exact Option.noConfusion hvol
            simp [hvol, hc, findVol, hne, h]

/-- Helper: one `snapshotPath` call preserves distinctness of cache keys. -/
theorem snapshotPath_cache_nodup (fixpath : Str → Str)
    (join : Str → Str → Str) (create : Str → Option VssSnapshot)
    (cache : SnapCache) (p : Str) (h : (cache.map Prod.fst).Nodup) :
    (((snapshotPath fixpath join create cache p).cache).map Prod.fst).Nodup := by
  unfold snapshotPath
  by_cases hlen : (trimPre (fixpath p) extendedPre).length < 2
  · simpa [hlen] using h
  · simp only [if_neg hlen]
    cases hvol : findVol cache ((trimPre (fixpath p) extendedPre).take 2) with
    | some t => simpa [hvol] using h
    | none =>
        cases hc : create ((trimPre (fixpath p) extendedPre).take 2 ++
            "\\".data) with
        | none => simpa [hvol, hc] using h
        | some snap =>
            simp only [hvol, hc, List.map_cons, List.nodup_cons]
            exact ⟨findVol_none_not_mem _ _ hvol, h⟩

/-- Claim C5: the snapshot cache holds at most one snapshot per volume
identifier (its keys stay pairwise distinct), creation is only attempted
when no entry exists for the path's volume, and once an entry exists it is
never replaced across any sequence of resolver operations: every later
resolution of a path on that volume looks up the same snapshot. -/
theorem localVss_cache_invariant (fixpath : Str → Str)
    (join : Str → Str → Str) (create : Str → Option VssSnapshot) :
    (∀ cache p, (snapshotPath fixpath join create cache p).created = true →
       findVol cache ((trimPre (fixpath p) extendedPre).take 2) = none) ∧
    (∀ ps cache v s, findVol cache v = some s →
       findVol (resolveAll fixpath join create cache ps).1 v = some s) ∧
    (∀ ps cache, (cache.map Prod.fst).Nodup →
       ((resolveAll fixpath join create cache ps).1.map Prod.fst).Nodup) := by
  refine ⟨?_, ?_, ?_⟩
  · intro cache p hcr
    unfold snapshotPath at hcr
    by_cases hlen : (trimPre (fixpath p) extendedPre).length < 2
    · simp [hlen] at hcr
    · simp only [if_neg hlen] at hcr
      cases hvol : findVol cache ((trimPre (fixpath p) extendedPre).take 2) with
      | some t => simp [hvol] at hcr
      | none => rfl
  · intro ps
    induction ps with
    | nil => intro cache v s h; simpa [resolveAll] using h
    | cons p ps ih =>
        intro cache v s h
        simpa [resolveAll] using
          ih _ _ _ (snapshotPath_cache_mono fixpath join create cache p v s h)
  · intro ps
    induction ps with
    | nil => intro cache h; simpa [resolveAll] using h
    | cons p ps ih =>
        intro cache h
        simpa [resolveAll] using
          ih _ (snapshotPath_cache_nodup fixpath join create cache p h)

/-- Claim C5 witness: a cached entry for volume `C:` survives later
resolutions, including one that inserts a different volume. -/
theorem localVss_cache_invariant_w :
    findVol (resolveAll id (· ++ ·) createNonWindows [("C:".data, snapC)]
      ["D:\\x".data, "C:\\y".data]).1 "C:".data = some snapC :=
  (localVss_cache_invariant id (· ++ ·) createNonWindows).2.1
    ["D:\\x".data, "C:\\y".data] [("C:".data, snapC)] "C:".data snapC
    (by decide)

/-- Claim C1: for every path under a volume with a cached snapshot `s`,
`snapshotPath` returns exactly the join of `s`'s root path (its snapshot
device object) with the portion of the normalized path after the
two-character volume identifier, for every normalization and join
function. -/
theorem snapshotPath_cached_volume (fixpath : Str → Str)
    (join : Str → Str → Str) (create : Str → Option VssSnapshot)
    (cache : SnapCache) (path : Str) (s : VssSnapshot)
    (hlen : 2 ≤ (trimPre (fixpath path) extendedPre).length)
    (hhit : findVol cache ((trimPre (fixpath path) extendedPre).take 2) =
      some s) :
    (snapshotPath fixpath join create cache path).result =
      some (join s.GetSnapshotDeviceObject
        (trimPre (trimPre (fixpath path) extendedPre)
          ((trimPre (fixpath path) extendedPre).take 2))) := by
  unfold snapshotPath
  simp [Nat.not_lt.mpr hlen, hhit]

/-- Claim C1 witness: the spec's end-to-end scenario — volume `C:` cached
with root `\\?\SnapshotDevice\1`, path `C:\data\file.txt` resolves to
`\\?\SnapshotDevice\1\data\file.txt`. -/
theorem snapshotPath_cached_volume_w :
    (snapshotPath id (· ++ ·) createNonWindows [("C:".data, snapC)]
      "C:\\data\\file.txt".data).result =
      some "\\\\?\\SnapshotDevice\\1\\data\\file.txt".data :=
  (snapshotPath_cached_volume id (· ++ ·) createNonWindows
    [("C:".data, snapC)] "C:\\data\\file.txt".data snapC (by decide)
    (by decide)).trans (by decide)

/-- Claim C6: when the path's volume has no cache entry and snapshot
creation fails, `snapshotPath` returns the original path completely
unchanged (not its normalized form), leaves the cache without any entry for
the volume (no negative-cache entry), and has attempted creation — so a
subsequent access to the volume, seeing the same cache, attempts creation
again. -/
theorem snapshotPath_create_failed (fixpath : Str → Str)
    (join : Str → Str → Str) (create : Str → Option VssSnapshot)
    (cache : SnapCache) (path : Str)
    (hlen : 2 ≤ (trimPre (fixpath path) extendedPre).length)
    (hmiss : findVol cache ((trimPre (fixpath path) extendedPre).take 2) =
      none)
    (hfail : create ((trimPre (fixpath path) extendedPre).take 2 ++
      "\\".data) = none) :
    snapshotPath fixpath join create cache path = ⟨cache, some path, true⟩ ∧
    (snapshotPath fixpath join create
      (snapshotPath fixpath join create cache path).cache path).created =
      true := by
  have h1 : snapshotPath fixpath join create cache path =
      ⟨cache, some path, true⟩ := by
    unfold snapshotPath
    simp [Nat.not_lt.mpr hlen, hmiss, hfail]
  refine ⟨h1, ?_⟩
  rw [h1]
  show (snapshotPath fixpath join create cache path).created = true
  rw [h1]

/-- Claim C6 witness: with the always-failing creator, `C:\data\file.txt`
resolves to itself and the cache stays empty. -/
theorem snapshotPath_create_failed_w :
    snapshotPath id (· ++ ·) createNonWindows [] "C:\\data\\file.txt".data =
      ⟨[], some "C:\\data\\file.txt".data, true⟩ :=
  (snapshotPath_create_failed id (· ++ ·) createNonWindows []
    "C:\\data\\file.txt".data (by decide) (by decide) (by decide)).1

/-- Claim C7 counterexample: on the empty input path (whose normalized form
under the identity normalization is shorter than two characters) the
source's `fixPath[:2]` slice is out of range, a Go runtime panic — modelled
as the `none` result — so path resolution does not survive every input
path. -/
theorem snapshotPath_short_input_panics :
    (snapshotPath id (· ++ ·) createNonWindows [] "".data).result = none :=
  rfl

/-- Claim C7 amended: for every input path whose normalized form (after
stripping the extended-length prefix) has at least two characters,
`snapshotPath` does not panic, and its result is either the original path
unchanged or the cached snapshot's rewrite of the path — never any other
path. -/
theorem snapshotPath_no_bad_rewrite (fixpath : Str → Str)
    (join : Str → Str → Str) (create : Str → Option VssSnapshot)
    (cache : SnapCache) (path : Str)
    (hlen : 2 ≤ (trimPre (fixpath path) extendedPre).length) :
    (snapshotPath fixpath join create cache path).result = some path ∨
    ∃ s, findVol (snapshotPath fixpath join create cache path).cache
        ((trimPre (fixpath path) extendedPre).take 2) = some s ∧
      (snapshotPath fixpath join create cache path).result =
        some (join s.GetSnapshotDeviceObject
          (trimPre (trimPre (fixpath path) extendedPre)
            ((trimPre (fixpath path) extendedPre).take 2))) := by
  unfold snapshotPath
  simp only [Nat.not_lt.mpr hlen, if_false]
  cases hvol : findVol cache ((trimPre (fixpath path) extendedPre).take 2) with
  | some t => right; exact ⟨t, by simp [hvol]⟩
  | none =>
      cases hc : create ((trimPre (fixpath path) extendedPre).take 2 ++
          "\\".data) with
      | none => left; simp [hvol, hc]
      | some snap => right; exact ⟨snap, by simp [hvol, hc, findVol]⟩

/-- Claim C7 amended witness: a path on an uncached volume with failing
creation resolves to itself. -/
theorem snapshotPath_no_bad_rewrite_w :
    (snapshotPath id (· ++ ·) createNonWindows [] "D:\\a".data).result =
      some "D:\\a".data ∨
    ∃ s, findVol (snapshotPath id (· ++ ·) createNonWindows []
        "D:\\a".data).cache
        ((trimPre (id "D:\\a".data) extendedPre).take 2) = some s ∧
      (snapshotPath id (· ++ ·) createNonWindows [] "D:\\a".data).result =
        some ((· ++ ·) s.GetSnapshotDeviceObject
          (trimPre (trimPre (id "D:\\a".data) extendedPre)
            ((trimPre (id "D:\\a".data) extendedPre).take 2))) :=
  snapshotPath_no_bad_rewrite id (· ++ ·) createNonWindows []
    "D:\\a".data (by decide)

/-- Claim C9: on non-Windows platforms every snapshot-creation call, for
every volume and timeout argument, fails immediately with the single
platform-unsupported error value, and the resolver degenerates to
pass-through: starting from the empty cache, every resolved path equals the
original path (and the cache stays empty). -/
theorem vss_unsupported_uniform (fixpath : Str → Str)
    (join : Str → Str → Str) :
    (∀ volume timeoutInSeconds,
       NewVssSnapshotNonWindows volume timeoutInSeconds =
         .error "VSS snapshots are only supported on windows") ∧
    (∀ ps, (∀ p ∈ ps, 2 ≤ (trimPre (fixpath p) extendedPre).length) →
       resolveAll fixpath join createNonWindows [] ps = ([], ps.map some)) := by
  refine ⟨fun _ _ => rfl, ?_⟩
  intro ps
  induction ps with
  | nil => intro _; rfl
  | cons p ps ih =>
      intro h
      have hp := h p (List.mem_cons_self p ps)
      have hstep : snapshotPath fixpath join createNonWindows [] p =
          ⟨[], some p, true⟩ :=
        (snapshotPath_create_failed fixpath join createNonWindows [] p hp
          rfl rfl).1
      have hrest := ih (fun q hq => h q (List.mem_cons_of_mem p hq))
      simp [resolveAll, hstep, hrest]

/-- Claim C9 witness: resolving two paths through the non-Windows stub
returns both unchanged. -/
theorem vss_unsupported_uniform_w :
    resolveAll id (· ++ ·) createNonWindows []
      ["C:\\data\\file.txt".data, "D:\\x".data] =
      ([], [some "C:\\data\\file.txt".data, some "D:\\x".data]) :=
  (vss_unsupported_uniform id (· ++ ·)).2
    ["C:\\data\\file.txt".data, "D:\\x".data] (by decide)

/-! ## Orchestrator theorems -/

/-- Helper: when the in-order executor reports no failure, it performed the
whole step list. -/
theorem runProtocolAux_ok (fail : VssStep → Option VssError) :
    ∀ l : List VssStep, (runProtocolAux fail l).2 = none →
      (runProtocolAux fail l).1 = l := by
  intro l
  induction l with
  | nil => intro _; rfl
  | cons s rest ih =>
      cases hf : fail s with
      | some e => simp [runProtocolAux, hf]
      | none =>
          intro h
          simp only [runProtocolAux, hf] at h ⊢
          simp [ih h]

set_option maxHeartbeats 1000000 in
/-- Helper: `NewVssSnapshot` equals the spec-side in-order executor. -/
theorem NewVssSnapshot_eq_spec (w : VssApiOracle) (volume : Str)
    (timeoutInSeconds : Nat) (ha : w.archOk = true) (hl : w.loadOk = true)
    (hc : w.coInitOk = true) :
    NewVssSnapshot w volume timeoutInSeconds =
      runProtocolSpec w volume timeoutInSeconds := by
  have hSE : ¬ (S_OK = E_ACCESSDENIED) := by decide
  unfold NewVssSnapshot runProtocolSpec vssProtocol
  simp only [ha, hl, hc, Bool.true_eq_false, if_false]
  by_cases h1 : w.createInstanceRes = E_ACCESSDENIED
  · simp [runProtocolAux, stepFailure, hSE, h1]
  by_cases h2 : w.createInstanceRes = S_OK
  swap
  · simp [runProtocolAux, stepFailure, hSE, h1, h2]
  by_cases h3 : w.queryInterfaceOk = false
  · simp [runProtocolAux, stepFailure, hSE, h1, h2, h3]
  by_cases h4 : w.initializeForBackupRes = S_OK
  swap
  · simp [runProtocolAux, stepFailure, hSE, h1, h2, h3, h4]
  by_cases h5 : w.setContextRes = S_OK
  swap
  · simp [runProtocolAux, stepFailure, hSE, h1, h2, h3, h4, h5]
  by_cases h6 : w.setBackupStateRes = S_OK
  swap
  · simp [runProtocolAux, stepFailure, hSE, h1, h2, h3, h4, h5, h6]
  cases hg : handleAsyncFunctionCall w.gatherWriterMetadata
      "GatherWriterMetadata" ((timeoutInSeconds : Int) * 1000) with
  | some e =>
      simp [runProtocolAux, stepFailure, hSE, h1, h2, h3, h4, h5, h6, hg]
  | none =>
  by_cases h7 : w.isVolumeSupportedRes = S_OK
  swap
  · simp [runProtocolAux, stepFailure, hSE, h1, h2, h3, h4, h5, h6, hg, h7]
  by_cases h8 : w.isVolumeSupportedVal = true
  swap
  · simp [runProtocolAux, stepFailure, hSE, h1, h2, h3, h4, h5, h6, hg, h7,
      h8]
  by_cases h9 : w.startSnapshotSetRes = S_OK
  swap
  · simp [runProtocolAux, stepFailure, hSE, h1, h2, h3, h4, h5, h6, hg, h7,
      h8, h9]
  by_cases h10 : w.addToSnapshotSetRes = S_OK
  swap
  · simp [runProtocolAux, stepFailure, hSE, h1, h2, h3, h4, h5, h6, hg, h7,
      h8, h9, h10]
  cases hp : handleAsyncFunctionCall w.prepareForBackup "PrepareForBackup"
      ((timeoutInSeconds : Int) * 1000) with
  | some e =>
      simp [runProtocolAux, stepFailure, hSE, h1, h2, h3, h4, h5, h6, hg,
        h7, h8, h9, h10, hp]
  | none =>
  cases hd : handleAsyncFunctionCall w.doSnapshotSet "DoSnapshotSet"
      ((timeoutInSeconds : Int) * 1000) with
  | some e =>
      simp [runProtocolAux, stepFailure, hSE, h1, h2, h3, h4, h5, h6, hg,
        h7, h8, h9, h10, hp, hd]
  | none =>
  by_cases h11 : w.getSnapshotPropertiesRes = S_OK
  · simp [runProtocolAux, stepFailure, hSE, h1, h2, h3, h4, h5, h6, hg, h7,
      h8, h9, h10, hp, hd, h11]
  · simp [runProtocolAux, stepFailure, hSE, h1, h2, h3, h4, h5, h6, hg, h7,
      h8, h9, h10, hp, hd, h11]

/-- Claim C2: snapshot creation equals running the fixed ordered step list
(instantiate session, InitializeForBackup, SetContext to the backup
context, SetBackupState with no component selection / non-bootable / copy
type / no partial-file support, GatherWriterMetadata, IsVolumeSupported,
StartSnapshotSet, AddToSnapshotSet, PrepareForBackup, DoSnapshotSet,
GetSnapshotProperties) strictly in order, each step checked for success
before the next begins, any step's failure aborting the whole sequence
with that step's error (for a native-status failure, an error carrying the
step's name and its status code — see `stepFailure`) and no snapshot value;
moreover a successful creation performed exactly the full ordered list. -/
theorem vss_create_protocol_order (w : VssApiOracle) (volume : Str)
    (timeoutInSeconds : Nat) (ha : w.archOk = true) (hl : w.loadOk = true)
    (hc : w.coInitOk = true) :
    NewVssSnapshot w volume timeoutInSeconds =
      runProtocolSpec w volume timeoutInSeconds ∧
    (∀ tr snap, NewVssSnapshot w volume timeoutInSeconds = (tr, .ok snap) →
       tr = vssProtocol volume) := by
  have heq := NewVssSnapshot_eq_spec w volume timeoutInSeconds ha hl hc
  refine ⟨heq, ?_⟩
  intro tr snap h
  rw [heq] at h
  unfold runProtocolSpec at h
  simp only [ha, hl, hc, Bool.true_eq_false, if_false] at h
  cases hres : (runProtocolAux
      (stepFailure w ((timeoutInSeconds : Int) * 1000))
      (vssProtocol volume)).2 with
  | some e => simp [hres] at h
  | none =>
      simp only [hres] at h
      rw [Prod.mk.injEq] at h
      rw [← h.1]
      exact runProtocolAux_ok _ _ hres

/-- Claim C2 witness: on an oracle where every native call succeeds, the
source orchestrator and the spec-side in-order executor agree. -/
theorem vss_create_protocol_order_w :
    NewVssSnapshot okOracle "C:\\".data 120 =
      runProtocolSpec okOracle "C:\\".data 120 :=
  (vss_create_protocol_order okOracle "C:\\".data 120 rfl rfl rfl).1

/-- Claim C10: when the call initiating an asynchronous step returns
success but the async-interface lookup fails, `handleAsyncReturnValue`
yields a success status with no handle (a nil handle), and
`handleAsyncFunctionCall` returns the explicit error naming the step
instead of waiting on (dereferencing) the missing handle. -/
theorem handleAsync_nil_guard (o : AsyncOracle) (name : String)
    (timeoutInMillis : Int) (hcall : o.callRes = S_OK)
    (hqi : o.queryInterfaceOk = false) :
    handleAsyncReturnValue o.callRes o.queryInterfaceOk = (S_OK, false) ∧
    handleAsyncFunctionCall o name timeoutInMillis =
      some (.nilAsync name) := by
  unfold handleAsyncFunctionCall handleAsyncReturnValue
  simp [hcall, hqi]

/-- Claim C10 witness: a successful `DoSnapshotSet` call whose async
lookup fails produces the nil-naming error. -/
theorem handleAsync_nil_guard_w :
    handleAsyncFunctionCall ⟨S_OK, false, true⟩ "DoSnapshotSet" 120000 =
      some (.nilAsync "DoSnapshotSet") :=
  (handleAsync_nil_guard ⟨S_OK, false, true⟩ "DoSnapshotSet" 120000 rfl
    rfl).2

/-- Claim C4 counterexample: when `BackupComplete` fails first (with
`VSS_E_BAD_STATE`) and `DeleteSnapshots` fails afterwards (with
`VSS_E_OBJECT_NOT_FOUND`), `Delete` returns the *later* delete-snapshots
error, not the first error encountered — refuting "returns the first error
encountered". -/
theorem vssDelete_returns_last_error :
    (VssSnapshot.Delete delSnap delBothFail).2 =
      some (.deleteSnapshotsFailed VSS_E_OBJECT_NOT_FOUND) ∧
    handleAsyncFunctionCall delBothFail.backupComplete "BackupComplete"
      delSnap.timeoutInMillis =
      some (.stepReturned "BackupComplete" VSS_E_BAD_STATE) ∧
    VssError.deleteSnapshotsFailed VSS_E_OBJECT_NOT_FOUND ≠
      VssError.stepReturned "BackupComplete" VSS_E_BAD_STATE := by
  refine ⟨rfl, rfl, by decide⟩

/-- Claim C4 amended: `Delete` always attempts the properties release
first; if that release fails it returns that error immediately, skipping
every remaining step; otherwise, when the session handle is present, the
handle is released unconditionally even if the backup-completion signal or
the snapshot-delete call failed, and the returned error is the *last* one
encountered (a delete-snapshots failure overwrites a backup-completion
failure). -/
theorem vssDelete_cleanup (p : VssSnapshot) (o : DeleteOracle) :
    (VssSnapshot.Delete p o).1.head? = some DelEvent.freeProps ∧
    (∀ m, o.freePropsErr = some m →
       VssSnapshot.Delete p o = ([.freeProps], some (.freePropsFailed m))) ∧
    (o.freePropsErr = none → p.hasComponents = true →
       (VssSnapshot.Delete p o).1 =
         [.freeProps, .backupComplete, .deleteSnapshots, .release] ∧
       (VssSnapshot.Delete p o).2 =
         (if o.deleteSnapshotsRes = S_OK then
            handleAsyncFunctionCall o.backupComplete "BackupComplete"
              p.timeoutInMillis
          else some (.deleteSnapshotsFailed o.deleteSnapshotsRes))) := by
  refine ⟨?_, ?_, ?_⟩
  · unfold VssSnapshot.Delete
    cases hf : o.freePropsErr with
    | some m => rfl
    | none => by_cases hc : p.hasComponents <;> simp [hc]
  · intro m hm
    unfold VssSnapshot.Delete
    rw [hm]
  · intro hf hc
    unfold VssSnapshot.Delete
    rw [hf]
    simp [hc]

/-- Claim C4 amended witness: with both late steps failing, all four
cleanup events happen, the handle release included. -/
theorem vssDelete_cleanup_w :
    (VssSnapshot.Delete delSnap delBothFail).1 =
      [.freeProps, .backupComplete, .deleteSnapshots, .release] :=
  ((vssDelete_cleanup delSnap delBothFail).2.2 rfl rfl).1

/-- Helper: while every polled iteration succeeds, reports an unfinished
state and a clock within the budget, the wait loop keeps running. -/
theorem waitLoop_running (polls : Nat → PollOutcome) (start millis : Int) :
    ∀ fuel i, (∀ j, i ≤ j → j < i + fuel →
        (polls j).waitRes = S_OK ∧ (polls j).queryRes = S_OK ∧
        (polls j).state ≠ VSS_S_ASYNC_FINISHED ∧
        ¬((polls j).nowUnix - start > millis)) →
      waitLoopFrom polls start millis i fuel = none := by
  intro fuel
  induction fuel with
  | zero => intro i _; rfl
  | succ n ih =>
      intro i h
      obtain ⟨hw, hq, hs, ht⟩ := h i (le_refl i) (by omega)
      unfold waitLoopFrom
      simp only [hw, hq, if_true, if_pos rfl, if_neg hs, if_neg ht]
      exact ih (i + 1) (fun j hj1 hj2 => h j (by omega) (by omega))

/-- Claim C3: with every poll succeeding, the state never reporting
finished, and the clock advancing one second per ten 100ms polls, a wait
with the 120000 ms budget (the orchestrator's budget for
`Create(volume, 120 seconds)`) is still polling after 2000 iterations —
about 200 seconds of wall-clock time, far past the claimed ~120 seconds —
because the source compares elapsed *seconds* (`time.Now().Unix()-start`)
against the *millisecond* budget; it first times out at an iteration whose
elapsed time exceeds 120000 seconds (about 33 hours), and the timeout
error value carries only the budget, not the step name. -/
theorem waitLoop_timeout_unit_mismatch :
    WaitUntilAsyncFinished clockPolls 0 120000 2000 = none ∧
    waitLoopFrom clockPolls 0 120000 1200010 2 =
      some (some (.waitTimedOut 120000)) := by
  refine ⟨waitLoop_running clockPolls 0 120000 2000 0 ?_, rfl⟩
  intro j _ hj2
  refine ⟨rfl, rfl, by show (0 : Nat) ≠ VSS_S_ASYNC_FINISHED; decide, ?_⟩
  show ¬(((j / 10 : Nat) : Int) - 0 > 120000)
  have hj : j / 10 < 200 := by omega
  omega

/-- Claim C8: if the status query fails on every iteration, the wait loop
never returns — neither success nor timeout — for any amount of fuel, any
start time and any budget, because the source checks the timeout only
after a *successful* status query: a forever-failing query is not bounded
by the timeout. -/
theorem waitLoop_query_fail_diverges (polls : Nat → PollOutcome)
    (start millis : Int) (h : ∀ i, (polls i).queryRes ≠ S_OK) :
    (∀ fuel, WaitUntilAsyncFinished polls start millis fuel = none) ∧
    (∀ fuel i, waitLoopFrom polls start millis i fuel = none) := by
  have hmain : ∀ fuel i, waitLoopFrom polls start millis i fuel = none := by
    intro fuel
    induction fuel with
    | zero => intro i; rfl
    | succ n ih =>
        intro i
        unfold waitLoopFrom
        by_cases hw : (polls i).waitRes = S_OK
        · simp [hw, h i, ih]
        · simp [hw, ih]
  exact ⟨fun fuel => hmain fuel 0, hmain⟩

/-- Claim C8 witness: a poll stream whose query always fails — even one
reporting a finished state at a time far past the budget — keeps the loop
running after 50 iterations. -/
theorem waitLoop_query_fail_diverges_w :
    WaitUntilAsyncFinished badPolls 0 120000 50 = none :=
  (waitLoop_query_fail_diverges badPolls 0 120000
    (fun i => by show E_ACCESSDENIED ≠ S_OK; decide)).1 50
